import Mathlib

/-!
Verification of the Security-Framework backend of a TLS abstraction layer
(`src/imp/security_framework.rs`).

The backend is a thin wrapper over an external cryptographic engine
(Apple's Security Framework, via the `security-framework` crate) and over
`tempdir`.  Those collaborators are modelled abstractly: an engine value
records, for each fallible engine call the Rust code makes, the outcome the
engine would return.  The Rust functions themselves are translated
faithfully: every `try!`, `unwrap`, `pop`, `filter`, and field access of the
source appears below.  Byte strings (`&[u8]`, DER encodings) are `List Nat`;
Rust `Result<T, E>` is `Except E T`; a reachable `unwrap` panic is made
explicit in the result type.  Resource lifecycle (temp-dir creation and the
drop that deletes it at scope exit) is recorded in an event trace.
-/

namespace NativeTLS

/-- Byte strings: `&[u8]` buffers and DER encodings. -/
abbrev Bytes := List Nat

/-- Model of `security_framework::base::Error`: the opaque engine error.
It exposes a description and an optional cause (the cause itself is kept
opaque as its description). -/
structure BaseError where
  description : String
  cause : Option String
deriving DecidableEq, Repr

/-- The backend's error type: `pub struct Error(base::Error)` — a pure
wrapper around the engine error. -/
structure Error where
  inner : BaseError
deriving DecidableEq, Repr

/-- Model of `impl error::Error for Error { fn description }`: delegates to
the wrapped engine error. -/
def Error.description (e : Error) : String :=
  e.inner.description

/-- Model of `impl error::Error for Error { fn cause }`: delegates to the
wrapped engine error. -/
def Error.cause (e : Error) : Option String :=
  e.inner.cause

/-- Model of `impl From<base::Error> for Error`. -/
def Error.fromBase (b : BaseError) : Error :=
  ⟨b⟩

/-- Model of `SecCertificate`: all the code observes of a certificate is
its DER encoding (`to_der`). -/
structure SecCertificate where
  to_der : Bytes
deriving DecidableEq, Repr

instance {ε α : Type} [DecidableEq ε] [DecidableEq α] :
    DecidableEq (Except ε α) := fun x y =>
  match x, y with
  | .error a, .error b => decidable_of_iff (a = b) (by simp)
  | .error _, .ok _ => isFalse (fun h => Except.noConfusion h)
  | .ok _, .error _ => isFalse (fun h => Except.noConfusion h)
  | .ok a, .ok b => decidable_of_iff (a = b) (by simp)

/-- Model of `SecIdentity`: the code only calls `.certificate()`, a
fallible engine call whose outcome is recorded here. -/
structure SecIdentity where
  certificateResult : Except BaseError SecCertificate
deriving DecidableEq, Repr

/-- One record yielded by `Pkcs12ImportOptions::import`: an identity plus
its certificate chain. -/
structure ImportRecord where
  identity : SecIdentity
  cert_chain : List SecCertificate
deriving DecidableEq, Repr

/-- Model of `SecKeychain`: the code only threads it from creation into
the importing call; we keep the path it was created at. -/
structure SecKeychain where
  path : String
deriving DecidableEq, Repr

/-- Abstract engine/environment for one `Pkcs12::parse` call: the outcome
of `TempDir::new` (`some dir` on success, `none` on failure), of
`keychain::CreateOptions::new().password(pw).create(path)`, and of
`Pkcs12ImportOptions::new().passphrase(p).keychain(kc).import(buf)`. -/
structure Pkcs12Engine where
  tempDirResult : Option String
  keychainCreate : String → String → Except BaseError SecKeychain
  pkcs12Import : Bytes → String → SecKeychain → Except BaseError (List ImportRecord)

/-- The backend's `pub struct Certificate(SecCertificate)`. -/
structure Certificate where
  cert : SecCertificate
deriving DecidableEq, Repr

/-- The backend's `pub struct Identity(SecIdentity)`. -/
structure Identity where
  ident : SecIdentity
deriving DecidableEq, Repr

/-- The backend's `pub struct Pkcs12 { identity, chain }`. -/
structure Pkcs12 where
  identity : Identity
  chain : List Certificate
deriving DecidableEq, Repr

/-- Observable resource events of one `parse` call: temp-dir creation, the
keychain file created inside it (recording the protection password used),
and the temp-dir removal performed by `TempDir`'s destructor at scope
exit. -/
inductive Event where
  | tempDirCreated (path : String)
  | keychainCreated (password : String) (path : String)
  | tempDirRemoved (path : String)
deriving DecidableEq, Repr

/-- Outcome of a `parse` call at its public interface: a bundle, an error,
or a panic (a reached `unwrap` on a failure value). -/
inductive ParseResult where
  | ok (p : Pkcs12)
  | err (e : Error)
  | panicked
deriving DecidableEq, Repr

/-- Translation of `Pkcs12::parse(buf, pass)`, paired with the trace of
resource events.  Line-by-line from the source:
`TempDir::new("native_tls").unwrap()`;
`try!(CreateOptions::new().password(pass).create(dir.path().join("keychain")))`;
`try!(Pkcs12ImportOptions::new().passphrase(pass).keychain(keychain).import(buf))`;
`import.pop().unwrap()` (Rust `Vec::pop` removes the LAST element);
`try!(import.identity.certificate()).to_der()`;
then the chain is filtered by DER inequality against the identity's own
certificate encoding.  `TempDir`'s destructor removes the directory at
every scope exit, including `try!` early returns and unwinding. -/
def Pkcs12.parse (eng : Pkcs12Engine) (buf : Bytes) (pass : String) :
    ParseResult × List Event :=
  match eng.tempDirResult with
  | none => (.panicked, [])
  | some dir =>
    match eng.keychainCreate pass (dir ++ "/keychain") with
    | .error e =>
      (.err (Error.fromBase e),
       [.tempDirCreated dir, .tempDirRemoved dir])
    | .ok kc =>
      match eng.pkcs12Import buf pass kc with
      | .error e =>
        (.err (Error.fromBase e),
         [.tempDirCreated dir, .keychainCreated pass (dir ++ "/keychain"),
          .tempDirRemoved dir])
      | .ok records =>
        match records.getLast? with
        | none =>
          (.panicked,
           [.tempDirCreated dir, .keychainCreated pass (dir ++ "/keychain"),
            .tempDirRemoved dir])
        | some rec =>
          match rec.identity.certificateResult with
          | .error e =>
            (.err (Error.fromBase e),
             [.tempDirCreated dir, .keychainCreated pass (dir ++ "/keychain"),
              .tempDirRemoved dir])
          | .ok cert =>
            let identity_cert := cert.to_der
            (.ok { identity := ⟨rec.identity⟩,
                   chain := (rec.cert_chain.filter
                       (fun c => decide (c.to_der ≠ identity_cert))).map
                     (fun c => ⟨c⟩) },
             [.tempDirCreated dir, .keychainCreated pass (dir ++ "/keychain"),
              .tempDirRemoved dir])

/-! Handshake side.  The secure-transport engine is modelled by the
outcomes of the calls the code makes: `SslContext::new`,
`set_peer_domain_name`, `set_certificate`, and a handshake step.  A
mid-handshake engine stream is modelled by the behaviour its next
`handshake()` call exhibits (complete / fail / interrupt again). -/

/-- Model of `secure_transport::SslStream<S>`: the established engine
session owning the transport. -/
structure SslStreamM (S : Type) where
  stream : S

/-- Model of `secure_transport::MidHandshakeSslStream<S>`: a suspended
engine handshake, described by what its next `handshake()` call does. -/
inductive MidHandshakeSslStreamM (S : Type) where
  | willComplete (s : SslStreamM S)
  | willFail (e : BaseError)
  | willInterrupt (next : MidHandshakeSslStreamM S)

/-- Model of `secure_transport::HandshakeError<S>`. -/
inductive STHandshakeError (S : Type) where
  | Failure (e : BaseError)
  | Interrupted (s : MidHandshakeSslStreamM S)

/-- One engine handshake step on a suspended engine stream. -/
def MidHandshakeSslStreamM.handshake :
    MidHandshakeSslStreamM S → Except (STHandshakeError S) (SslStreamM S)
  | .willComplete s => .ok s
  | .willFail e => .error (.Failure e)
  | .willInterrupt next => .error (.Interrupted next)

/-- The backend's `ProtocolSide`. -/
inductive ProtocolSide where
  | Client
  | Server
deriving DecidableEq, Repr

/-- The backend's `ConnectionType`. -/
inductive ConnectionType where
  | Stream
deriving DecidableEq, Repr

/-- Model of `SslContext`: the configuration state the code installs before
driving the handshake. -/
structure SslContextM where
  side : ProtocolSide
  connType : ConnectionType
  peerDomain : Option String
  certIdentity : Option (SecIdentity × List SecCertificate)

/-- Abstract secure-transport engine for one handshake attempt: outcomes of
`SslContext::new`, `set_peer_domain_name`, `set_certificate`, and of
driving the handshake on a configured context with a transport. -/
structure SecureTransportEngine (S : Type) where
  newContext : ProtocolSide → ConnectionType → Except BaseError Unit
  setPeerDomainName : String → Except BaseError Unit
  setCertificate : SecIdentity → List SecCertificate → Except BaseError Unit
  ctxHandshake : SslContextM → S → Except (STHandshakeError S) (SslStreamM S)

/-- The backend's `pub struct TlsStream<S>(secure_transport::SslStream<S>)`. -/
structure TlsStream (S : Type) where
  inner : SslStreamM S

/-- The backend's
`pub struct MidHandshakeTlsStream<S>(secure_transport::MidHandshakeSslStream<S>)`. -/
structure MidHandshakeTlsStream (S : Type) where
  inner : MidHandshakeSslStreamM S

/-- The backend's `pub enum HandshakeError<S>`. -/
inductive HandshakeError (S : Type) where
  | Interrupted (s : MidHandshakeTlsStream S)
  | Failure (e : Error)

/-- Model of `impl From<secure_transport::HandshakeError<S>> for
HandshakeError<S>`. -/
def HandshakeError.fromST : STHandshakeError S → HandshakeError S
  | .Failure e => .Failure (Error.fromBase e)
  | .Interrupted s => .Interrupted ⟨s⟩

/-- Translation of `MidHandshakeTlsStream::handshake`: drive the wrapped
engine stream once and convert the outcome. -/
def MidHandshakeTlsStream.handshake (m : MidHandshakeTlsStream S) :
    Except (HandshakeError S) (TlsStream S) :=
  match m.inner.handshake with
  | .ok s => .ok ⟨s⟩
  | .error e => .error (HandshakeError.fromST e)

/-- The backend's `pub struct ClientBuilder(())`: a unit struct with no
state. -/
structure ClientBuilder where
  u : Unit
deriving DecidableEq, Repr

/-- Translation of `ClientBuilder::new`: unconditionally `Ok`. -/
def ClientBuilder.new : Except Error ClientBuilder :=
  .ok ⟨()⟩

/-- Translation of `ClientBuilder::handshake(domain, stream)`: create a
client-side context, set the peer domain name, drive the handshake once.
The builder value itself is never read. -/
def ClientBuilder.handshake (_b : ClientBuilder) (eng : SecureTransportEngine S)
    (domain : String) (stream : S) :
    Except (HandshakeError S) (TlsStream S) :=
  match eng.newContext .Client .Stream with
  | .error e => .error (.Failure (Error.fromBase e))
  | .ok _ =>
    match eng.setPeerDomainName domain with
    | .error e => .error (.Failure (Error.fromBase e))
    | .ok _ =>
      let ctx : SslContextM :=
        { side := .Client, connType := .Stream,
          peerDomain := some domain, certIdentity := none }
      match eng.ctxHandshake ctx stream with
      | .ok s => .ok ⟨s⟩
      | .error e => .error (HandshakeError.fromST e)

/-- The backend's `pub struct ServerBuilder { identity, chain }`. -/
structure ServerBuilder where
  identity : SecIdentity
  chain : List SecCertificate
deriving DecidableEq, Repr

/-- Translation of `ServerBuilder::new(identity, chain)`: unconditionally
`Ok`, unwrapping the public wrappers into the stored engine handles. -/
def ServerBuilder.new (identity : Identity) (chain : List Certificate) :
    Except Error ServerBuilder :=
  .ok { identity := identity.ident, chain := chain.map (fun c => c.cert) }

/-- Translation of `ServerBuilder::handshake(stream)`: create a server-side
context, install the stored identity and chain, drive the handshake once. -/
def ServerBuilder.handshake (sb : ServerBuilder) (eng : SecureTransportEngine S)
    (stream : S) : Except (HandshakeError S) (TlsStream S) :=
  match eng.newContext .Server .Stream with
  | .error e => .error (.Failure (Error.fromBase e))
  | .ok _ =>
    match eng.setCertificate sb.identity sb.chain with
    | .error e => .error (.Failure (Error.fromBase e))
    | .ok _ =>
      let ctx : SslContextM :=
        { side := .Server, connType := .Stream,
          peerDomain := none, certIdentity := some (sb.identity, sb.chain) }
      match eng.ctxHandshake ctx stream with
      | .ok s => .ok ⟨s⟩
      | .error e => .error (HandshakeError.fromST e)

/-! Concrete engine instances used to exercise the definitions. -/

/-- A leaf certificate with DER encoding `[1, 2]`. -/
def certA : SecCertificate := ⟨[1, 2]⟩

/-- A distinct chain certificate with DER encoding `[3, 4]`. -/
def certB : SecCertificate := ⟨[3, 4]⟩

/-- A third certificate with DER encoding `[5]`. -/
def certC : SecCertificate := ⟨[5]⟩

/-- An identity whose certificate is `certA`. -/
def idA : SecIdentity := ⟨.ok certA⟩

/-- An identity whose certificate is `certB`. -/
def idB : SecIdentity := ⟨.ok certB⟩

/-- An import record for `idA` whose chain contains the leaf twice. -/
def recA : ImportRecord := ⟨idA, [certA, certB, certA, certC]⟩

/-- An import record for `idB` whose chain contains only the leaf. -/
def recB : ImportRecord := ⟨idB, [certB]⟩

/-- An engine error standing for a wrong-passphrase decode failure. -/
def err0 : BaseError := ⟨"MAC verification failed during PKCS12 import", none⟩

/-- Engine: everything succeeds, the import yields the single record
`recA`. -/
def engOk : Pkcs12Engine :=
  { tempDirResult := some "/tmp/native_tls"
    keychainCreate := fun _pw p => .ok ⟨p⟩
    pkcs12Import := fun _ _ _ => .ok [recA] }

/-- Engine: everything succeeds, the import yields two records
`[recA, recB]`. -/
def engTwo : Pkcs12Engine :=
  { tempDirResult := some "/tmp/native_tls"
    keychainCreate := fun _pw p => .ok ⟨p⟩
    pkcs12Import := fun _ _ _ => .ok [recA, recB] }

/-- Engine: the PKCS#12 import always fails (as it does when the supplied
passphrase is not the bundle's). -/
def engWrongPass : Pkcs12Engine :=
  { tempDirResult := some "/tmp/native_tls"
    keychainCreate := fun _pw p => .ok ⟨p⟩
    pkcs12Import := fun _ _ _ => .error err0 }

/-- Engine: temp-dir creation fails. -/
def engNoTempDir : Pkcs12Engine :=
  { tempDirResult := none
    keychainCreate := fun _pw p => .ok ⟨p⟩
    pkcs12Import := fun _ _ _ => .ok [recA] }

/-- Engine: the import succeeds but yields zero records. -/
def engNoRecords : Pkcs12Engine :=
  { tempDirResult := some "/tmp/native_tls"
    keychainCreate := fun _pw p => .ok ⟨p⟩
    pkcs12Import := fun _ _ _ => .ok [] }

/-- The identity handle carried by a successful parse outcome, if any. -/
def ParseResult.identityOf : ParseResult → Option SecIdentity
  | .ok p => some p.identity.ident
  | _ => none

/-! Helper lemmas about the DER-filter used by `Pkcs12.parse`. -/

lemma leaf_not_mem_filter_der (l : List SecCertificate) (leaf : Bytes) :
    leaf ∉ (l.filter (fun c => decide (c.to_der ≠ leaf))).map
      SecCertificate.to_der := by
  intro h
  rcases List.mem_map.1 h with ⟨c, hc, hder⟩
  have hp := List.of_mem_filter hc
  simp only [decide_eq_true_eq] at hp
  exact hp hder

lemma count_filter_der (l : List SecCertificate) (leaf v : Bytes)
    (hv : v ≠ leaf) :
    ((l.filter (fun c => decide (c.to_der ≠ leaf))).map
        SecCertificate.to_der).count v
      = (l.map SecCertificate.to_der).count v := by
  induction l with
  | nil => rfl
  | cons c t ih =>
    rw [List.filter_cons]
    by_cases h : c.to_der = leaf
    · have hd : decide (c.to_der ≠ leaf) = false := by simp [h]
      rw [hd]
      simp only [Bool.false_eq_true, if_false]
      rw [ih, List.map_cons, List.count_cons]
      have hne : (c.to_der == v) = false := by
        simp only [beq_eq_false_iff_ne, ne_eq]
        exact fun hc => hv (hc ▸ h)
      rw [hne]
      simp
    · have hd : decide (c.to_der ≠ leaf) = true := by simp [h]
      rw [hd]
      simp only [if_true]
      rw [List.map_cons, List.map_cons, List.count_cons, List.count_cons, ih]

lemma sublist_filter_der (l : List SecCertificate) (leaf : Bytes) :
    ((l.filter (fun c => decide (c.to_der ≠ leaf))).map
        SecCertificate.to_der).Sublist (l.map SecCertificate.to_der) :=
  (List.filter_sublist l).map SecCertificate.to_der

lemma parse_trace_facts (eng : Pkcs12Engine) (buf : Bytes)
    (pass dir : String) (h1 : eng.tempDirResult = some dir) :
    (Pkcs12.parse eng buf pass).2.getLast?
        = some (Event.tempDirRemoved dir) ∧
    ∀ pw p, Event.keychainCreated pw p ∈ (Pkcs12.parse eng buf pass).2 →
      pw = pass ∧ p = dir ++ "/keychain" := by
  cases hk : eng.keychainCreate pass (dir ++ "/keychain") with
  | error e =>
    constructor
    · simp [Pkcs12.parse, h1, hk]
    · intro pw p hmem
      simp [Pkcs12.parse, h1, hk] at hmem
  | ok kc =>
    cases hi : eng.pkcs12Import buf pass kc with
    | error e =>
      constructor
      · simp [Pkcs12.parse, h1, hk, hi]
      · intro pw p hmem
        simp [Pkcs12.parse, h1, hk, hi] at hmem
        exact hmem
    | ok records =>
      cases hl : records.getLast? with
      | none =>
        constructor
        · simp [Pkcs12.parse, h1, hk, hi, hl]
        · intro pw p hmem
          simp [Pkcs12.parse, h1, hk, hi, hl] at hmem
          exact hmem
      | some rec =>
        cases hc : rec.identity.certificateResult with
        | error e =>
          constructor
          · simp [Pkcs12.parse, h1, hk, hi, hl, hc]
          · intro pw p hmem
            simp [Pkcs12.parse, h1, hk, hi, hl, hc] at hmem
            exact hmem
        | ok cert =>
          constructor
          · simp [Pkcs12.parse, h1, hk, hi, hl, hc]
          · intro pw p hmem
            simp [Pkcs12.parse, h1, hk, hi, hl, hc] at hmem
            exact hmem

lemma except_handshake_shapes {S : Type}
    (r : Except (HandshakeError S) (TlsStream S)) :
    (∃ t, r = .ok t) ∨ (∃ m, r = .error (.Interrupted m)) ∨
      (∃ e, r = .error (.Failure e)) := by
  match r with
  | .ok t => exact .inl ⟨t, rfl⟩
  | .error (.Interrupted m) => exact .inr (.inl ⟨m, rfl⟩)
  | .error (.Failure e) => exact .inr (.inr ⟨e, rfl⟩)

/-! Claim theorems. -/

/-- C1: on a successful `Pkcs12::parse`, the identity's own (leaf)
certificate encoding occurs zero times in the returned chain, while every
other certificate of the selected import record's chain keeps its
multiplicity (count of its encoding) and its relative order (the returned
encodings form a sublist of the record's). -/
theorem parse_chain_excludes_leaf (eng : Pkcs12Engine) (buf : Bytes)
    (pass dir : String) (kc : SecKeychain) (records : List ImportRecord)
    (rec : ImportRecord) (cert : SecCertificate)
    (h1 : eng.tempDirResult = some dir)
    (h2 : eng.keychainCreate pass (dir ++ "/keychain") = .ok kc)
    (h3 : eng.pkcs12Import buf pass kc = .ok records)
    (h4 : records.getLast? = some rec)
    (h5 : rec.identity.certificateResult = .ok cert) :
    (Pkcs12.parse eng buf pass).1
        = ParseResult.ok
            ⟨⟨rec.identity⟩,
             (rec.cert_chain.filter
                 (fun c => decide (c.to_der ≠ cert.to_der))).map
               (fun c => ⟨c⟩)⟩ ∧
    cert.to_der ∉
      (rec.cert_chain.filter
          (fun c => decide (c.to_der ≠ cert.to_der))).map
        SecCertificate.to_der ∧
    (∀ v, v ≠ cert.to_der →
      ((rec.cert_chain.filter
          (fun c => decide (c.to_der ≠ cert.to_der))).map
            SecCertificate.to_der).count v
        = (rec.cert_chain.map SecCertificate.to_der).count v) ∧
    ((rec.cert_chain.filter
        (fun c => decide (c.to_der ≠ cert.to_der))).map
          SecCertificate.to_der).Sublist
      (rec.cert_chain.map SecCertificate.to_der) := by
  refine ⟨?_, leaf_not_mem_filter_der rec.cert_chain cert.to_der,
    fun v hv => count_filter_der rec.cert_chain cert.to_der v hv,
    sublist_filter_der rec.cert_chain cert.to_der⟩
  simp [Pkcs12.parse, h1, h2, h3, h4, h5]

/-- Witness for C1: a record whose chain holds the leaf twice; the parsed
chain drops both leaf copies and keeps the two other members once each,
in order. -/
theorem parse_chain_excludes_leaf_witness :
    (Pkcs12.parse engOk [] "pw").1
        = ParseResult.ok ⟨⟨idA⟩, [⟨certB⟩, ⟨certC⟩]⟩ ∧
    certA.to_der ∉
      (recA.cert_chain.filter
          (fun c => decide (c.to_der ≠ certA.to_der))).map
        SecCertificate.to_der :=
  have h := parse_chain_excludes_leaf engOk [] "pw" "/tmp/native_tls"
    ⟨"/tmp/native_tls" ++ "/keychain"⟩ [recA] recA certA rfl rfl rfl rfl rfl
  ⟨h.1, h.2.1⟩

/-- C2 counterexample: with two import records the bundle is built from
the second record (`recB`), not from the record at index 0 (`recA`). -/
theorem parse_first_record_counterexample :
    engTwo.pkcs12Import [] "pw" ⟨"/tmp/native_tls/keychain"⟩
        = Except.ok [recA, recB] ∧
    (Pkcs12.parse engTwo [] "pw").1.identityOf = some recB.identity ∧
    recB.identity ≠ recA.identity := by
  refine ⟨rfl, by decide, by decide⟩

/-- C2 (amended): `Pkcs12::parse` builds the bundle from the LAST import
record — the one `Vec::pop` removes — not from the first. -/
theorem parse_selects_last_record (eng : Pkcs12Engine) (buf : Bytes)
    (pass dir : String) (kc : SecKeychain) (records : List ImportRecord)
    (rec : ImportRecord) (cert : SecCertificate)
    (h1 : eng.tempDirResult = some dir)
    (h2 : eng.keychainCreate pass (dir ++ "/keychain") = .ok kc)
    (h3 : eng.pkcs12Import buf pass kc = .ok records)
    (h4 : records.getLast? = some rec)
    (h5 : rec.identity.certificateResult = .ok cert) :
    (Pkcs12.parse eng buf pass).1.identityOf = some rec.identity := by
  simp [Pkcs12.parse, ParseResult.identityOf, h1, h2, h3, h4, h5]

/-- Witness for the amended C2: `recB` is the last of two records and the
parsed bundle's identity is `recB`'s. -/
theorem parse_selects_last_record_witness :
    [recA, recB].getLast? = some recB ∧
    (Pkcs12.parse engTwo [] "pw").1.identityOf = some recB.identity :=
  ⟨rfl, parse_selects_last_record engTwo [] "pw" "/tmp/native_tls"
    ⟨"/tmp/native_tls" ++ "/keychain"⟩ [recA, recB] recB certB
    rfl rfl rfl rfl rfl⟩

/-- C3: when the engine's import rejects the (wrong) passphrase for every
keychain, `Pkcs12::parse` returns `Err` — never a bundle and never a
panic. -/
theorem parse_wrong_pass_errors (eng : Pkcs12Engine) (buf : Bytes)
    (pass dir : String) (e0 : BaseError)
    (h1 : eng.tempDirResult = some dir)
    (h2 : ∀ kc, eng.pkcs12Import buf pass kc = .error e0) :
    ∃ e, (Pkcs12.parse eng buf pass).1 = ParseResult.err e := by
  cases hk : eng.keychainCreate pass (dir ++ "/keychain") with
  | error e =>
    exact ⟨Error.fromBase e, by simp [Pkcs12.parse, h1, hk]⟩
  | ok kc =>
    exact ⟨Error.fromBase e0, by simp [Pkcs12.parse, h1, hk, h2 kc]⟩

/-- Witness for C3 at a concrete always-rejecting engine. -/
theorem parse_wrong_pass_errors_witness :
    (∀ kc, engWrongPass.pkcs12Import [] "wrong" kc = Except.error err0) ∧
    ∃ e, (Pkcs12.parse engWrongPass [] "wrong").1 = ParseResult.err e :=
  ⟨fun _ => rfl,
   parse_wrong_pass_errors engWrongPass [] "wrong" "/tmp/native_tls" err0
     rfl (fun _ => rfl)⟩

/-- C4: every handshake invocation — on a `ClientBuilder`, on a
`ServerBuilder`, or on a `MidHandshakeTlsStream` — yields exactly one of
`Ok(TlsStream)`, `Err(Interrupted(MidHandshakeTlsStream))`, or
`Err(Failure(Error))`; no other result shape exists. -/
theorem handshake_three_outcomes {S : Type} (eng : SecureTransportEngine S)
    (b : ClientBuilder) (domain : String) (stream1 stream2 : S)
    (sb : ServerBuilder) (m : MidHandshakeTlsStream S) :
    ((∃ t, b.handshake eng domain stream1 = .ok t) ∨
      (∃ m', b.handshake eng domain stream1 = .error (.Interrupted m')) ∨
      (∃ e, b.handshake eng domain stream1 = .error (.Failure e))) ∧
    ((∃ t, sb.handshake eng stream2 = .ok t) ∨
      (∃ m', sb.handshake eng stream2 = .error (.Interrupted m')) ∨
      (∃ e, sb.handshake eng stream2 = .error (.Failure e))) ∧
    ((∃ t, m.handshake = .ok t) ∨
      (∃ m', m.handshake = .error (.Interrupted m')) ∨
      (∃ e, m.handshake = .error (.Failure e))) :=
  ⟨except_handshake_shapes _, except_handshake_shapes _,
    except_handshake_shapes _⟩

/-- C5 counterexample: at a concrete import with passphrase `hunter2`, the
ephemeral keychain's protection password is exactly that externally
supplied PKCS#12 passphrase — not a process-local secret. -/
theorem keychain_password_counterexample :
    (Pkcs12.parse engOk [] "hunter2").2
      = [Event.tempDirCreated "/tmp/native_tls",
         Event.keychainCreated "hunter2" ("/tmp/native_tls" ++ "/keychain"),
         Event.tempDirRemoved "/tmp/native_tls"] := rfl

/-- C5 (amended): whenever `Pkcs12::parse` creates its ephemeral keychain,
the protection password it uses is the caller-supplied PKCS#12
passphrase itself. -/
theorem keychain_password_is_caller_passphrase (eng : Pkcs12Engine)
    (buf : Bytes) (pass pw p : String)
    (h : Event.keychainCreated pw p ∈ (Pkcs12.parse eng buf pass).2) :
    pw = pass := by
  cases htd : eng.tempDirResult with
  | none =>
    simp [Pkcs12.parse, htd] at h
  | some dir =>
    exact ((parse_trace_facts eng buf pass dir htd).2 pw p h).1

/-- Witness for the amended C5 at a concrete engine. -/
theorem keychain_password_is_caller_passphrase_witness :
    Event.keychainCreated "hunter2" ("/tmp/native_tls" ++ "/keychain")
        ∈ (Pkcs12.parse engOk [] "hunter2").2 ∧
    ("hunter2" : String) = "hunter2" :=
  ⟨by decide,
   keychain_password_is_caller_passphrase engOk [] "hunter2" "hunter2"
     ("/tmp/native_tls" ++ "/keychain") (by decide)⟩

/-- C6: whenever the temporary directory is created, the trace of a
`parse` call ends with its removal (on success and on every error
return), and the keychain artifact created during the call lives inside
that directory, so nothing persists after the call. -/
theorem parse_teardown_on_return (eng : Pkcs12Engine) (buf : Bytes)
    (pass dir : String) (h1 : eng.tempDirResult = some dir) :
    (Pkcs12.parse eng buf pass).2.getLast?
        = some (Event.tempDirRemoved dir) ∧
    ∀ pw p, Event.keychainCreated pw p ∈ (Pkcs12.parse eng buf pass).2 →
      p = dir ++ "/keychain" :=
  ⟨(parse_trace_facts eng buf pass dir h1).1,
   fun pw p h => ((parse_trace_facts eng buf pass dir h1).2 pw p h).2⟩

/-- Witness for C6 at a concrete engine. -/
theorem parse_teardown_on_return_witness :
    (Pkcs12.parse engOk [] "pw").2.getLast?
        = some (Event.tempDirRemoved "/tmp/native_tls") :=
  (parse_teardown_on_return engOk [] "pw" "/tmp/native_tls" rfl).1

/-- C7: a `ClientBuilder` holds no state at all: any two builder values
are equal, and two handshake calls with the same domain, stream and
engine behaviour produce identical results regardless of which builder
value is used. -/
theorem clientBuilder_stateless {S : Type} (b1 b2 : ClientBuilder)
    (eng : SecureTransportEngine S) (domain : String) (stream : S) :
    b1 = b2 ∧
      b1.handshake eng domain stream = b2.handshake eng domain stream := by
  obtain ⟨u1⟩ := b1
  obtain ⟨u2⟩ := b2
  cases u1
  cases u2
  exact ⟨rfl, rfl⟩

/-- C8: wrapping an engine error into `Error` preserves its description
and its cause; the cause is present exactly when the engine error has
one. -/
theorem error_wraps_engine_error_faithfully (b : BaseError) :
    (Error.fromBase b).description = b.description ∧
    (Error.fromBase b).cause = b.cause ∧
    ((Error.fromBase b).cause.isSome ↔ b.cause.isSome) :=
  ⟨rfl, rfl, Iff.rfl⟩

/-- C9: `Pkcs12::parse` panics (rather than returning `Err`) when
temp-dir creation fails, and panics when the import succeeds but yields
zero records. -/
theorem parse_panics_on_tempdir_and_empty_import
    (engA engB : Pkcs12Engine) (bufA bufB : Bytes)
    (passA passB dir : String) (kc : SecKeychain)
    (h1 : engA.tempDirResult = none)
    (h2 : engB.tempDirResult = some dir)
    (h3 : engB.keychainCreate passB (dir ++ "/keychain") = .ok kc)
    (h4 : engB.pkcs12Import bufB passB kc = .ok []) :
    (Pkcs12.parse engA bufA passA).1 = ParseResult.panicked ∧
    (Pkcs12.parse engB bufB passB).1 = ParseResult.panicked := by
  constructor
  · simp [Pkcs12.parse, h1]
  · simp [Pkcs12.parse, h2, h3, h4]

/-- Witness for C9 at two concrete engines. -/
theorem parse_panics_on_tempdir_and_empty_import_witness :
    (Pkcs12.parse engNoTempDir [] "pw").1 = ParseResult.panicked ∧
    (Pkcs12.parse engNoRecords [] "pw").1 = ParseResult.panicked :=
  parse_panics_on_tempdir_and_empty_import engNoTempDir engNoRecords [] []
    "pw" "pw" "/tmp/native_tls" ⟨"/tmp/native_tls" ++ "/keychain"⟩
    rfl rfl rfl rfl

/-- C10: `ClientBuilder::new` returns `Ok` unconditionally, and
`ServerBuilder::new` returns `Ok` for every identity and chain; neither
constructor has a reachable error path. -/
theorem builders_new_always_ok (i : Identity) (chain : List Certificate) :
    (∃ cb, ClientBuilder.new = Except.ok cb) ∧
    (∃ sb, ServerBuilder.new i chain = Except.ok sb) :=
  ⟨⟨⟨()⟩, rfl⟩, ⟨_, rfl⟩⟩

end NativeTLS
